import Mathlib

/-!
# Verification of the GCE GitHub Actions runner bootstrap script

Shallow embedding of `src/modules/cloud-run/cloud-init.py` and proofs about it.

The script's pure computations (string derivations, JSON-object rewriting,
unit-file rendering) are embedded directly as Lean functions.  The effectful
orchestration in `main` is embedded as a deterministic function from an
environment (the outcomes of the external calls: metadata HTTP responses,
subprocess exit statuses, the pre-existing state of `/etc/docker/daemon.json`)
to a process outcome together with the trace of external calls performed,
in program order.
-/


/- ## Python string primitives used by the script -/

/-- The ASCII whitespace characters stripped by Python's `str.strip()`
(the model is restricted to ASCII input; Python additionally strips some
Unicode whitespace, which never occurs in the metadata bodies involved). -/
def isPySpace (c : Char) : Bool :=
  c == ' ' || c == '\t' || c == '\n' || c == '\r' || c == '\x0b' || c == '\x0c'

/-- `str.strip()` on the character list: remove trailing whitespace
(via reversal), then leading whitespace. -/
def pyStripL (l : List Char) : List Char :=
  ((l.reverse.dropWhile isPySpace).reverse).dropWhile isPySpace

/-- Python `str.strip()`. -/
def pyStrip (s : String) : String := ⟨pyStripL s.data⟩

/-- Python `str.lstrip()`. -/
def pyLStrip (s : String) : String := ⟨s.data.dropWhile isPySpace⟩

/-- `s.partition(sep)[-1]`: the part after the first occurrence of `sep`,
or `[]` when `sep` does not occur (Python's `partition` then returns
`(s, "", "")`, whose last component is the empty string). -/
def afterFirstL (sep : List Char) : List Char → List Char
  | [] => []
  | c :: cs =>
    if sep.isPrefixOf (c :: cs) then (c :: cs).drop sep.length
    else afterFirstL sep cs

/-- Drop elements up to and including the first occurrence of `c`. -/
def dropThroughFirst (c : Char) : List Char → List Char
  | [] => []
  | x :: xs => if x == c then xs else dropThroughFirst c xs

/-- `s.rsplit(c, 1)[0]`: everything before the last occurrence of `c`,
or the whole list when `c` does not occur. -/
def rsplitBeforeL (c : Char) (l : List Char) : List Char :=
  if c ∈ l then (dropThroughFirst c l.reverse).reverse else l

/-- Does `sep` occur as a contiguous subsequence? (used to state claims
about inputs with no `/zones/` marker). -/
def hasInfixL (sep : List Char) : List Char → Bool
  | [] => sep.isEmpty
  | c :: cs => sep.isPrefixOf (c :: cs) || hasInfixL sep cs

/- ## The metadata client (`get_project_id`, `get_region`, `get_jitconfig`)

Each function is modelled as its treatment of the decoded HTTP response
body; the HTTP request itself is part of the effect model below. -/

/-- `get_project_id`: `response.read().decode("utf-8").strip()`. -/
def get_project_id (body : String) : String := pyStrip body

/-- The `zone_path.partition("/zones/")[-1]` step of `get_region`. -/
def zone_of_path (zone_path : String) : String :=
  ⟨afterFirstL "/zones/".data zone_path.data⟩

/-- The `zone.rsplit("-", 1)[0]` step of `get_region`. -/
def region_of_zone (zone : String) : String :=
  ⟨rsplitBeforeL '-' zone.data⟩

/-- `get_region`: strip the decoded body, take the substring after the first
`/zones/`, and drop the trailing `-<suffix>`. -/
def get_region (body : String) : String :=
  region_of_zone (zone_of_path (pyStrip body))

/-- `get_jitconfig`: `response.read().decode("utf-8")` — returned verbatim,
with no `.strip()`. -/
def get_jitconfig (body : String) : String := body

/- ## The Docker daemon configuration (`configure_docker`)

`daemon.json` is a JSON object; the script treats it as a Python dict
(insertion-ordered) and touches only the `registry-mirrors` and `ipv6`
keys.  JSON values are modelled structurally; numbers are restricted to
integers, which is irrelevant here since the script never reads or writes
a numeric value. -/

inductive JValue where
  | null
  | bool (b : Bool)
  | num (n : Int)
  | str (s : String)
  | arr (elems : List JValue)
  | obj (fields : List (String × JValue))

/-- A JSON object / Python dict, in insertion order. -/
abbrev Config := List (String × JValue)

/-- Python dict lookup (`d[k]` / `d.get(k)`): first (unique) matching key. -/
def getKey (k : String) : Config → Option JValue
  | [] => none
  | (k', v) :: rest => if k' = k then some v else getKey k rest

/-- Python dict assignment (`d[k] = v`): replace the value in place when the
key is present, otherwise append the new key at the end (insertion order). -/
def setKey (k : String) (v : JValue) : Config → Config
  | [] => [(k, v)]
  | (k', v') :: rest => if k' = k then (k', v) :: rest else (k', v') :: setKey k v rest

/-- Occurrences of the string `s` among the elements of a JSON array. -/
def countStr (s : String) (l : List JValue) : Nat :=
  l.countP (fun v => match v with | .str t => t == s | _ => false)

/-- The mirror URL computed by `configure_docker`:
`f"{region}-docker.pkg.dev/{project_id}/virtual"`. -/
def virtual_repo_url (region project_id : String) : String :=
  region ++ "-docker.pkg.dev/" ++ project_id ++ "/virtual"

/-- The configuration rewrite performed by `configure_docker` on the parsed
`daemon.json` object (`none` = the file did not exist, so `daemon_config = {}`):

* `daemon_config.setdefault("registry-mirrors", []).append(virtual_repo)` —
  when the key is absent it is inserted with `[]` and the URL appended; when
  present with a list value the URL is appended; when present with a
  non-list value Python raises `AttributeError` (modelled as `none`);
* `daemon_config["ipv6"] = True`.

Returns the rewritten object together with the returned `virtual_repo`. -/
def configure_docker (region project_id : String) (existing : Option Config) :
    Option (Config × String) :=
  let daemon_config := existing.getD []
  let virtual_repo := virtual_repo_url region project_id
  match getKey "registry-mirrors" daemon_config with
  | some (.arr l) =>
    some (setKey "ipv6" (.bool true)
      (setKey "registry-mirrors" (.arr (l ++ [.str virtual_repo])) daemon_config),
      virtual_repo)
  | some _ => none
  | none =>
    some (setKey "ipv6" (.bool true)
      (setKey "registry-mirrors" (.arr ([] ++ [.str virtual_repo])) daemon_config),
      virtual_repo)

/-- `needle` occurs as a contiguous substring of `hay`. -/
def strContains (hay needle : String) : Prop :=
  ∃ pre post : String, hay = pre ++ (needle ++ post)

/-- The fixed flag section of the `docker run` command line (a single Python
string literal, written via implicit concatenation in the source). -/
def dockerFlags : String :=
  "/usr/bin/docker run --name gha-runner --log-driver=gcplogs --log-opt mode=non-blocking --log-opt max-buffer-size=4m --env DOCKER_BUILDKIT=1 --volume /var/run/docker.sock:/var/run/docker.sock --volume /var/lib/github:/runner/_work "

/-- `image = f"{virtual_repo}/actions/actions-runner:latest"`. -/
def image_ref (virtual_repo : String) : String :=
  virtual_repo ++ "/actions/actions-runner:latest"

/-- `docker_run_line` from the source:
`f"... {image} ./run.sh --jitconfig {jit}"`. -/
def docker_run_line (image jit : String) : String :=
  dockerFlags ++ image ++ " ./run.sh --jitconfig " ++ jit

/-- The unit template up to `ExecStart=` (including the leading newline of
the triple-quoted f-string, removed by `.lstrip()`). -/
def unitPre : String :=
  "\n[Unit]\nDescription=GitHub Actions Runner (container)\nAfter=docker.service\nRequires=docker.service\n\n[Service]\nType=exec\nEnvironment=\"DOCKER_CONFIG=/tmp/.docker\"\n\n# Start the container detached\nExecStart="

/-- The unit template after the `ExecStart=` line. -/
def unitPost : String :=
  "\n\n# Power off when it’s done\nExecStopPost=/usr/bin/systemctl poweroff\n\n# Don’t restart the unit; the container exit ends the VM\nRemainAfterExit=yes\n\n[Install]\nWantedBy=multi-user.target\n"

/-- The rendered unit text: `unit_contents = f"""...""".lstrip()`. -/
def unit_contents (virtual_repo jit : String) : String :=
  pyLStrip (unitPre ++ docker_run_line (image_ref virtual_repo) jit ++ unitPost)

/-- `unitPre` without the leading newline (the effect of `.lstrip()`). -/
def unitPreStripped : String :=
  "[Unit]\nDescription=GitHub Actions Runner (container)\nAfter=docker.service\nRequires=docker.service\n\n[Service]\nType=exec\nEnvironment=\"DOCKER_CONFIG=/tmp/.docker\"\n\n# Start the container detached\nExecStart="

/- ## The orchestrator (`main`) as a deterministic effect model

`main` is a straight line of external calls.  `Env` fixes the outcome of
every external interaction an execution can reach: whether each subprocess
call succeeds, what each metadata fetch returns (`none` = network error,
timeout or non-2xx, which `urllib` raises), and the state of
`/etc/docker/daemon.json`.  `main` returns how the process terminates and
the ordered trace of external calls it performed.  `sys.exit(1)` from one
of the three `except` blocks is `exitOne <stage>`; an exception that no
`try` encloses is `uncaught <site>`. -/

/-- State of `/etc/docker/daemon.json` before the run: missing, present but
not a JSON object readable by `json.load` (so `configure_docker` raises),
or a parsed JSON object. -/
inductive DaemonFile where
  | absent
  | malformed
  | wellFormed (cfg : Config)

/-- `if daemon_json_path.exists(): json.load(...) else: {}` — `none` when
loading raises, otherwise the optional parsed object passed on
(`none` inside = file absent, handled as `{}` by `configure_docker`). -/
def daemonLoad : DaemonFile → Option (Option Config)
  | .absent => some none
  | .malformed => none
  | .wellFormed cfg => some (some cfg)

/-- Outcomes of the external calls `main` can reach, in program order. -/
structure Env where
  installOk : Bool
  mountOk : Bool
  projectResp : Option String
  zoneResp : Option String
  mkTmpOk : Bool
  credOk : Bool
  mkEtcOk : Bool
  daemonFile : DaemonFile
  daemonWriteOk : Bool
  chmodOk : Bool
  reloadOk : Bool
  jitResp : Option String
  unitWriteOk : Bool
  daemonReloadOk : Bool
  enableOk : Bool

/-- The externally visible calls of one run, with the data written. -/
inductive Event where
  | installDir
  | bindMount
  | fetchProject
  | fetchZone
  | mkTmpDir
  | credHelper
  | mkEtcDir
  | loadDaemon
  | writeDaemon (cfg : Config)
  | chmodSock
  | reloadDocker
  | fetchJit
  | writeUnit (contents : String)
  | daemonReload
  | enableStart

/-- Event kinds (the payloads erased). -/
inductive EventKind where
  | installDir
  | bindMount
  | fetchProject
  | fetchZone
  | mkTmpDir
  | credHelper
  | mkEtcDir
  | loadDaemon
  | writeDaemon
  | chmodSock
  | reloadDocker
  | fetchJit
  | writeUnit
  | daemonReload
  | enableStart
deriving DecidableEq

def eventKind : Event → EventKind
  | .installDir => .installDir
  | .bindMount => .bindMount
  | .fetchProject => .fetchProject
  | .fetchZone => .fetchZone
  | .mkTmpDir => .mkTmpDir
  | .credHelper => .credHelper
  | .mkEtcDir => .mkEtcDir
  | .loadDaemon => .loadDaemon
  | .writeDaemon _ => .writeDaemon
  | .chmodSock => .chmodSock
  | .reloadDocker => .reloadDocker
  | .fetchJit => .fetchJit
  | .writeUnit _ => .writeUnit
  | .daemonReload => .daemonReload
  | .enableStart => .enableStart

/-- Which try-block's `except` handler called `sys.exit(1)`. -/
inductive Stage where
  | dockerConfig
  | dockerReload
  | unitInstall
deriving DecidableEq

/-- Where an exception escaped `main` with no enclosing `try`. -/
inductive UncaughtSite where
  | runnerDirs
  | projectFetch
  | regionFetch
  | sockChmod
deriving DecidableEq

inductive MainOutcome where
  | success
  | exitOne (stage : Stage)
  | uncaught (site : UncaughtSite)
deriving DecidableEq

/-- The full pipeline of `main`, line by line:
`configure_runner_dirs()` (install, mount — uncaught on failure);
`get_project_id()`, `get_region()` (uncaught on failure);
`configure_docker(...)` inside `try` (tmp config dir, credential helper,
`/etc/docker` mkdir, `daemon.json` load, rewrite, write — `sys.exit(1)` on
failure); `chmod a=rw /var/run/docker.sock` (uncaught); `systemctl reload
docker` inside `try` (`sys.exit(1)`); then inside the last `try`:
`write_systemd_unit` (JIT fetch and unit-file write), `systemctl
daemon-reload`, `systemctl enable --now gha-runner.service`
(`sys.exit(1)`). -/
def main_run (e : Env) : MainOutcome × List Event :=
  if e.installOk then
    if e.mountOk then
      match e.projectResp with
      | none => (.uncaught .projectFetch, [.installDir, .bindMount, .fetchProject])
      | some projectBody =>
        match e.zoneResp with
        | none =>
          (.uncaught .regionFetch, [.installDir, .bindMount, .fetchProject, .fetchZone])
        | some zoneBody =>
          if e.mkTmpOk then
            if e.credOk then
              if e.mkEtcOk then
                match daemonLoad e.daemonFile with
                | none =>
                  (.exitOne .dockerConfig,
                   [.installDir, .bindMount, .fetchProject, .fetchZone, .mkTmpDir,
                    .credHelper, .mkEtcDir, .loadDaemon])
                | some existing =>
                  match configure_docker (get_region zoneBody)
                      (get_project_id projectBody) existing with
                  | none =>
                    (.exitOne .dockerConfig,
                     [.installDir, .bindMount, .fetchProject, .fetchZone, .mkTmpDir,
                      .credHelper, .mkEtcDir, .loadDaemon])
                  | some (cfg, virtual_repo) =>
                    if e.daemonWriteOk then
                      if e.chmodOk then
                        if e.reloadOk then
                          match e.jitResp with
                          | none =>
                            (.exitOne .unitInstall,
                             [.installDir, .bindMount, .fetchProject, .fetchZone,
                              .mkTmpDir, .credHelper, .mkEtcDir, .loadDaemon,
                              .writeDaemon cfg, .chmodSock, .reloadDocker, .fetchJit])
                          | some jitBody =>
                            if e.unitWriteOk then
                              if e.daemonReloadOk then
                                if e.enableOk then
                                  (.success,
                                   [.installDir, .bindMount, .fetchProject, .fetchZone,
                                    .mkTmpDir, .credHelper, .mkEtcDir, .loadDaemon,
                                    .writeDaemon cfg, .chmodSock, .reloadDocker, .fetchJit,
                                    .writeUnit (unit_contents virtual_repo (get_jitconfig jitBody)),
                                    .daemonReload, .enableStart])
                                else
                                  (.exitOne .unitInstall,
                                   [.installDir, .bindMount, .fetchProject, .fetchZone,
                                    .mkTmpDir, .credHelper, .mkEtcDir, .loadDaemon,
                                    .writeDaemon cfg, .chmodSock, .reloadDocker, .fetchJit,
                                    .writeUnit (unit_contents virtual_repo (get_jitconfig jitBody)),
                                    .daemonReload, .enableStart])
                              else
                                (.exitOne .unitInstall,
                                 [.installDir, .bindMount, .fetchProject, .fetchZone,
                                  .mkTmpDir, .credHelper, .mkEtcDir, .loadDaemon,
                                  .writeDaemon cfg, .chmodSock, .reloadDocker, .fetchJit,
                                  .writeUnit (unit_contents virtual_repo (get_jitconfig jitBody)),
                                  .daemonReload])
                            else
                              (.exitOne .unitInstall,
                               [.installDir, .bindMount, .fetchProject, .fetchZone,
                                .mkTmpDir, .credHelper, .mkEtcDir, .loadDaemon,
                                .writeDaemon cfg, .chmodSock, .reloadDocker, .fetchJit,
                                .writeUnit (unit_contents virtual_repo (get_jitconfig jitBody))])
                        else
                          (.exitOne .dockerReload,
                           [.installDir, .bindMount, .fetchProject, .fetchZone, .mkTmpDir,
                            .credHelper, .mkEtcDir, .loadDaemon, .writeDaemon cfg,
                            .chmodSock, .reloadDocker])
                      else
                        (.uncaught .sockChmod,
                         [.installDir, .bindMount, .fetchProject, .fetchZone, .mkTmpDir,
                          .credHelper, .mkEtcDir, .loadDaemon, .writeDaemon cfg, .chmodSock])
                    else
                      (.exitOne .dockerConfig,
                       [.installDir, .bindMount, .fetchProject, .fetchZone, .mkTmpDir,
                        .credHelper, .mkEtcDir, .loadDaemon, .writeDaemon cfg])
              else
                (.exitOne .dockerConfig,
                 [.installDir, .bindMount, .fetchProject, .fetchZone, .mkTmpDir,
                  .credHelper, .mkEtcDir])
            else
              (.exitOne .dockerConfig,
               [.installDir, .bindMount, .fetchProject, .fetchZone, .mkTmpDir, .credHelper])
          else
            (.exitOne .dockerConfig,
             [.installDir, .bindMount, .fetchProject, .fetchZone, .mkTmpDir])
    else (.uncaught .runnerDirs, [.installDir, .bindMount])
  else (.uncaught .runnerDirs, [.installDir])

/-- The complete trace of a fully successful run, by kind. -/
def canonicalKinds : List EventKind :=
  [.installDir, .bindMount, .fetchProject, .fetchZone, .mkTmpDir, .credHelper,
   .mkEtcDir, .loadDaemon, .writeDaemon, .chmodSock, .reloadDocker, .fetchJit,
   .writeUnit, .daemonReload, .enableStart]

/- ## Characterizing the outcome of `main_run` -/

def dirsOkB (e : Env) : Bool := e.installOk && e.mountOk

def metaOkB (e : Env) : Bool := e.projectResp.isSome && e.zoneResp.isSome

/-- Whether `daemon_config.setdefault("registry-mirrors", []).append(...)`
succeeds on the loaded object: the key must be absent or list-valued. -/
def mirrorsFieldOk (ex : Option Config) : Bool :=
  match getKey "registry-mirrors" (ex.getD []) with
  | none => true
  | some (.arr _) => true
  | some _ => false

def daemonShapeOkB : DaemonFile → Bool
  | .absent => true
  | .malformed => false
  | .wellFormed cfg => mirrorsFieldOk (some cfg)

/-- All steps inside the `configure_docker` try-block succeed. -/
def cfgStageOkB (e : Env) : Bool :=
  e.mkTmpOk && e.credOk && e.mkEtcOk && daemonShapeOkB e.daemonFile && e.daemonWriteOk

/-- All steps inside the unit-installation try-block succeed. -/
def unitStageOkB (e : Env) : Bool :=
  e.jitResp.isSome && e.unitWriteOk && e.daemonReloadOk && e.enableOk

/-- The outcome of `main_run`, written as a decision over the stage
predicates (proved equal to the outcome of the pipeline below). -/
def mainOutcomeOf (e : Env) : MainOutcome :=
  if dirsOkB e then
    if metaOkB e then
      if cfgStageOkB e then
        if e.chmodOk then
          if e.reloadOk then
            if unitStageOkB e then .success else .exitOne .unitInstall
          else .exitOne .dockerReload
        else .uncaught .sockChmod
      else .exitOne .dockerConfig
    else if e.projectResp.isSome then .uncaught .regionFetch else .uncaught .projectFetch
  else .uncaught .runnerDirs

/-- The kind-level trace of `main_run`, as a decision over the step
predicates (proved equal to the real trace below): the run performs the
canonical prefix up to and including its first failing step. -/
def mainKindsOf (e : Env) : List EventKind :=
  if e.installOk then
    if e.mountOk then
      if e.projectResp.isSome then
        if e.zoneResp.isSome then
          if e.mkTmpOk then
            if e.credOk then
              if e.mkEtcOk then
                if daemonShapeOkB e.daemonFile then
                  if e.daemonWriteOk then
                    if e.chmodOk then
                      if e.reloadOk then
                        if e.jitResp.isSome then
                          if e.unitWriteOk then
                            if e.daemonReloadOk then canonicalKinds
                            else canonicalKinds.take 14
                          else canonicalKinds.take 13
                        else canonicalKinds.take 12
                      else canonicalKinds.take 11
                    else canonicalKinds.take 10
                  else canonicalKinds.take 9
                else canonicalKinds.take 8
              else canonicalKinds.take 7
            else canonicalKinds.take 6
          else canonicalKinds.take 5
        else canonicalKinds.take 4
      else canonicalKinds.take 3
    else canonicalKinds.take 2
  else canonicalKinds.take 1

/-- An environment in which every external call succeeds. -/
def envAllOk : Env :=
  ⟨true, true, some "p1", some "projects/1/zones/us-east1-b", true, true, true,
   .absent, true, true, true, some "abc", true, true, true⟩

/- ## C6: metadata-fetch failures and prior filesystem mutations -/

/-- Event kinds that mutate the filesystem: directory creation, bind mount,
docker config-dir creation, the `daemon.json` write, the socket chmod, and
the unit-file write. -/
def fsMutation : EventKind → Bool
  | .installDir => true
  | .bindMount => true
  | .mkTmpDir => true
  | .mkEtcDir => true
  | .writeDaemon => true
  | .chmodSock => true
  | .writeUnit => true
  | _ => false

/-- Environment where every external call succeeds except the JIT fetch. -/
def envJitFail : Env :=
  ⟨true, true, some "p1", some "projects/1/zones/us-east1-b", true, true, true,
   .absent, true, true, true, none, true, true, true⟩

/-- Environment where every external call succeeds except the project-id
fetch. -/
def envProjFail : Env :=
  ⟨true, true, none, some "projects/1/zones/us-east1-b", true, true, true,
   .absent, true, true, true, some "abc", true, true, true⟩

/-! ## Theorems -/

/- ## List-level lemmas about the string primitives -/

theorem dropWhile_eq_self_of_head {p : Char → Bool} {l : List Char}
    (h : ∀ c, l.head? = some c → p c = false) : l.dropWhile p = l := by
  cases l with
  | nil => rfl
  | cons c cs =>
    have hc := h c rfl
    simp [List.dropWhile_cons, hc]

theorem pyStripL_eq_self {l : List Char}
    (h1 : ∀ c, l.head? = some c → isPySpace c = false)
    (h2 : ∀ c, l.getLast? = some c → isPySpace c = false) :
    pyStripL l = l := by
  unfold pyStripL
  have hrev : l.reverse.dropWhile isPySpace = l.reverse := by
    apply dropWhile_eq_self_of_head
    intro c hc
    rw [List.head?_reverse] at hc
    exact h2 c hc
  rw [hrev, List.reverse_reverse]
  exact dropWhile_eq_self_of_head h1

theorem afterFirstL_marker (sep rest : List Char) (hsep : sep ≠ []) :
    afterFirstL sep (sep ++ rest) = rest := by
  cases sep with
  | nil => exact absurd rfl hsep
  | cons s ss =>
    show afterFirstL (s :: ss) (s :: (ss ++ rest)) = rest
    unfold afterFirstL
    rw [if_pos, List.length_cons]
    · show List.drop (ss.length + 1) (s :: (ss ++ rest)) = rest
      exact List.drop_left ss rest
    · exact List.isPrefixOf_iff_prefix.mpr (List.prefix_append (s :: ss) rest)

theorem afterFirstL_prepend (sep rest : List Char) (hsep : sep ≠ []) :
    ∀ pre : List Char,
      (∀ t, t <:+ pre → t ≠ [] → ¬ (sep <+: (t ++ (sep ++ rest)))) →
      afterFirstL sep (pre ++ (sep ++ rest)) = rest
  | [], _ => afterFirstL_marker sep rest hsep
  | c :: pre', h => by
    have hnp : ¬ sep.isPrefixOf (c :: (pre' ++ (sep ++ rest))) := by
      intro hp
      exact h (c :: pre') List.suffix_rfl (by simp)
        (by simp only [List.cons_append]; exact List.isPrefixOf_iff_prefix.mp hp)
    show afterFirstL sep (c :: (pre' ++ (sep ++ rest))) = rest
    unfold afterFirstL
    rw [if_neg hnp]
    exact afterFirstL_prepend sep rest hsep pre'
      (fun t ht hne => h t (ht.trans (List.suffix_cons c pre')) hne)

theorem dropThroughFirst_append (c : Char) (A B : List Char) (h : c ∉ A) :
    dropThroughFirst c (A ++ c :: B) = B := by
  induction A with
  | nil => simp [dropThroughFirst]
  | cons a A' ih =>
    have hac : a ≠ c := fun hac => h (hac ▸ List.mem_cons_self a A')
    have hA' : c ∉ A' := fun hm => h (List.mem_cons_of_mem a hm)
    show dropThroughFirst c (a :: (A' ++ c :: B)) = B
    unfold dropThroughFirst
    rw [if_neg (by simpa using hac)]
    exact ih hA'

theorem rsplitBeforeL_append (R S : List Char) (hS : '-' ∉ S) :
    rsplitBeforeL '-' (R ++ '-' :: S) = R := by
  unfold rsplitBeforeL
  rw [if_pos (by simp)]
  have hrev : (R ++ '-' :: S).reverse = S.reverse ++ '-' :: R.reverse := by
    simp [List.reverse_append]
  rw [hrev, dropThroughFirst_append '-' S.reverse R.reverse
    (by simpa [List.mem_reverse] using hS), List.reverse_reverse]

theorem afterFirstL_of_no_marker (sep : List Char) :
    ∀ l : List Char, hasInfixL sep l = false → afterFirstL sep l = []
  | [], _ => rfl
  | c :: cs, h => by
    unfold hasInfixL at h
    rw [Bool.or_eq_false_iff] at h
    unfold afterFirstL
    rw [if_neg (by simp [h.1])]
    exact afterFirstL_of_no_marker sep cs h.2

theorem hasInfixL_eq_true_iff (sep : List Char) :
    ∀ l : List Char, hasInfixL sep l = true ↔ sep <:+: l
  | [] => by
    simp [hasInfixL, List.isEmpty_iff, List.infix_nil]
  | c :: cs => by
    unfold hasInfixL
    rw [Bool.or_eq_true, List.isPrefixOf_iff_prefix, hasInfixL_eq_true_iff sep cs,
      List.infix_cons_iff]

theorem pyStripL_within (l : List Char) : pyStripL l <:+: l := by
  unfold pyStripL
  have h1 : l.reverse.dropWhile isPySpace <:+ l.reverse := List.dropWhile_suffix _
  have h2 : (l.reverse.dropWhile isPySpace).reverse <+: l := by
    have h3 := List.reverse_prefix.mpr h1
    simpa using h3
  exact ((List.dropWhile_suffix _).isInfix).trans h2.isInfix

/- ## C1 / C10: the `get_region` derivation -/

theorem no_early_zones_marker (N : List Char) (hN : ∀ c ∈ N, c.isDigit = true)
    (rest0 : List Char) :
    ∀ t, t <:+ ("projects/".data ++ N) → t ≠ [] →
      ¬ ("/zones/".data <+: (t ++ ("/zones/".data ++ rest0))) := by
  intro t ht hne hpre
  obtain ⟨u, hu⟩ := hpre
  have hZ : "/zones/".data = '/' :: 'z' :: "ones/".data := rfl
  rw [hZ] at hu
  cases t with
  | nil => exact hne rfl
  | cons c t' =>
    simp only [List.cons_append] at hu
    obtain ⟨h1, hu2⟩ := List.cons_eq_cons.mp hu
    cases t' with
    | nil =>
      simp only [List.nil_append, List.cons_append] at hu2
      obtain ⟨h2, -⟩ := List.cons_eq_cons.mp hu2
      exact absurd h2 (by decide)
    | cons d t'' =>
      simp only [List.cons_append] at hu2
      obtain ⟨h2, -⟩ := List.cons_eq_cons.mp hu2
      have hdt : d ∈ c :: d :: t'' := List.mem_cons_of_mem c (List.mem_cons_self d t'')
      have hdp : d ∈ "projects/".data ++ N := ht.subset hdt
      rcases List.mem_append.mp hdp with hin | hin
      · rw [← h2] at hin
        exact absurd hin (by decide)
      · have := hN d hin
        rw [← h2] at this
        exact absurd this (by decide)

/-- **C1.** For every zone string of the form `projects/<N>/zones/<region>-<suffix>`
(`N` numeric, `<suffix>` free of `-` and of whitespace), `get_region` applied to
that metadata response body returns exactly `<region>`: it takes the substring
after the `/zones/` marker and drops the trailing `-<suffix>`. -/
theorem get_region_zone_form (N region suffix : String)
    (hN : ∀ c ∈ N.data, c.isDigit = true)
    (hsuffix : ∀ c ∈ suffix.data, c ≠ '-' ∧ isPySpace c = false) :
    get_region ("projects/" ++ N ++ "/zones/" ++ region ++ "-" ++ suffix) = region := by
  have hdash : ("-" : String).data = ['-'] := rfl
  have hbody : ("projects/" ++ N ++ "/zones/" ++ region ++ "-" ++ suffix).data
      = ("projects/".data ++ N.data) ++ ("/zones/".data ++ (region.data ++ '-' :: suffix.data)) := by
    simp [String.data_append, List.append_assoc, hdash]
  have hstrip : pyStripL ("projects/" ++ N ++ "/zones/" ++ region ++ "-" ++ suffix).data
      = ("projects/".data ++ N.data) ++ ("/zones/".data ++ (region.data ++ '-' :: suffix.data)) := by
    rw [hbody]
    apply pyStripL_eq_self
    · intro c hc
      have hp : ("projects/".data) = 'p' :: "rojects/".data := rfl
      rw [hp] at hc
      simp only [List.cons_append, List.head?_cons, Option.some.injEq] at hc
      cases hc
      decide
    · intro c hc
      have hW : ((("projects/".data ++ N.data) ++ ("/zones/".data ++ (region.data ++ '-' :: suffix.data))))
          = ((("projects/".data ++ N.data) ++ "/zones/".data) ++ region.data) ++ ('-' :: suffix.data) := by
        simp [List.append_assoc]
      rw [hW, List.getLast?_append] at hc
      have hne : ('-' :: suffix.data) ≠ [] := by simp
      rw [List.getLast?_eq_getLast _ hne] at hc
      simp only [Option.or, Option.some.injEq] at hc
      have hmem : ('-' :: suffix.data).getLast hne ∈ ('-' :: suffix.data) := List.getLast_mem hne
      rw [hc] at hmem
      rcases List.mem_cons.mp hmem with rfl | hin
      · decide
      · exact (hsuffix c hin).2
  have hafter : afterFirstL "/zones/".data
      (("projects/".data ++ N.data) ++ ("/zones/".data ++ (region.data ++ '-' :: suffix.data)))
      = region.data ++ '-' :: suffix.data :=
    afterFirstL_prepend _ _ (by decide) _ (no_early_zones_marker N.data hN _)
  have hrs : rsplitBeforeL '-' (region.data ++ '-' :: suffix.data) = region.data :=
    rsplitBeforeL_append _ _ (fun hm => absurd rfl (hsuffix '-' hm).1)
  have hmk : ∀ l : List Char, (String.mk l).data = l := fun _ => rfl
  unfold get_region zone_of_path region_of_zone pyStrip
  apply String.ext
  simp only [hmk]
  rw [hstrip, hafter, hrs]

theorem get_region_zone_form_witness :
    (∀ c ∈ ("123" : String).data, c.isDigit = true)
    ∧ get_region ("projects/" ++ "123" ++ "/zones/" ++ "us-central1" ++ "-" ++ "a") = "us-central1" :=
  ⟨by decide, get_region_zone_form "123" "us-central1" "a" (by decide) (by decide)⟩

/-- **C10.** On a zone-path string with no `/zones/` marker the derivation of
`get_region` returns the empty string (the partition step yields the empty
last component, and the rsplit of the empty string gives the empty string);
and the rsplit step applied to a zone component with no `-` returns that
component unchanged.  Both functions are total Lean functions, so no
exception is possible on such malformed inputs. -/
theorem get_region_malformed_inputs (path Z : String)
    (hpath : hasInfixL "/zones/".data path.data = false)
    (hZ : '-' ∉ Z.data) :
    get_region path = "" ∧ region_of_zone Z = Z := by
  constructor
  · have hstrip : hasInfixL "/zones/".data (pyStripL path.data) = false := by
      rw [← Bool.not_eq_true, hasInfixL_eq_true_iff]
      intro hinf
      have hp : "/zones/".data <:+: path.data := hinf.trans (pyStripL_within path.data)
      rw [← hasInfixL_eq_true_iff, hpath] at hp
      cases hp
    have hafter := afterFirstL_of_no_marker "/zones/".data _ hstrip
    apply String.ext
    show rsplitBeforeL '-' (afterFirstL "/zones/".data (pyStripL path.data)) = ("" : String).data
    rw [hafter]
    rfl
  · apply String.ext
    show rsplitBeforeL '-' Z.data = Z.data
    unfold rsplitBeforeL
    rw [if_neg hZ]

theorem get_region_malformed_inputs_witness :
    hasInfixL "/zones/".data ("malformed" : String).data = false
    ∧ (get_region "malformed" = "" ∧ region_of_zone "useast" = "useast") :=
  ⟨by decide, get_region_malformed_inputs "malformed" "useast" (by decide) (by decide)⟩

theorem getKey_setKey_self (k : String) (v : JValue) (m : Config) :
    getKey k (setKey k v m) = some v := by
  induction m with
  | nil => simp [getKey, setKey]
  | cons kv rest ih =>
    obtain ⟨k', v'⟩ := kv
    by_cases h : k' = k
    · simp [getKey, setKey, h]
    · simp [getKey, setKey, h, ih]

theorem getKey_setKey_ne (k k' : String) (v : JValue) (m : Config) (h : k' ≠ k) :
    getKey k' (setKey k v m) = getKey k' m := by
  have hke : ¬ k = k' := fun hc => h hc.symm
  induction m with
  | nil => simp [getKey, setKey, hke]
  | cons kv rest ih =>
    obtain ⟨k₀, v₀⟩ := kv
    by_cases h0 : k₀ = k
    · subst h0
      have h0e : ¬ k₀ = k' := fun hc => h hc.symm
      simp [getKey, setKey, h0e]
    · simp [getKey, setKey, h0, ih]

/-- **C2.** Against an absent (`none`) or empty (`{}` = `some []`) daemon
configuration, `configure_docker` produces a configuration whose
`registry-mirrors` key is a list with exactly one entry,
`<region>-docker.pkg.dev/<project>/virtual`, whose `ipv6` key is `true`,
and it returns that same mirror URL string. -/
theorem configure_docker_fresh_config (region project : String) (existing : Option Config)
    (h : existing = none ∨ existing = some ([] : Config)) :
    ∃ cfg, configure_docker region project existing
        = some (cfg, virtual_repo_url region project)
      ∧ getKey "registry-mirrors" cfg
          = some (.arr [.str (virtual_repo_url region project)])
      ∧ getKey "ipv6" cfg = some (.bool true) := by
  have hres : configure_docker region project existing
      = some ([("registry-mirrors", JValue.arr [.str (virtual_repo_url region project)]),
               ("ipv6", JValue.bool true)], virtual_repo_url region project) := by
    rcases h with rfl | rfl <;> rfl
  exact ⟨_, hres, rfl, rfl⟩

theorem configure_docker_fresh_config_witness :
    ∃ cfg, configure_docker "us-east1" "p1" none
        = some (cfg, virtual_repo_url "us-east1" "p1")
      ∧ getKey "registry-mirrors" cfg
          = some (.arr [.str (virtual_repo_url "us-east1" "p1")])
      ∧ getKey "ipv6" cfg = some (.bool true) :=
  configure_docker_fresh_config "us-east1" "p1" none (Or.inl rfl)

/-- **C3.** For every pre-existing daemon configuration, `configure_docker`
leaves every key other than `registry-mirrors` and `ipv6` present with its
original value, and deletes no key. -/
theorem configure_docker_preserves_unrelated_keys (region project : String)
    (m m' : Config) (url : String) (k : String)
    (h : configure_docker region project (some m) = some (m', url))
    (hk1 : k ≠ "registry-mirrors") (hk2 : k ≠ "ipv6") :
    getKey k m' = getKey k m
    ∧ (∀ k₂, (getKey k₂ m).isSome = true → (getKey k₂ m').isSome = true) := by
  have hshape : ∃ l0, m' = setKey "ipv6" (JValue.bool true)
      (setKey "registry-mirrors" (JValue.arr l0) m) := by
    unfold configure_docker at h
    simp only [Option.getD_some] at h
    cases hg : getKey "registry-mirrors" m with
    | none =>
      rw [hg] at h
      simp only [Option.some.injEq, Prod.mk.injEq] at h
      exact ⟨_, h.1.symm⟩
    | some v =>
      rw [hg] at h
      cases v with
      | arr l =>
        simp only [Option.some.injEq, Prod.mk.injEq] at h
        exact ⟨_, h.1.symm⟩
      | null => cases h
      | bool b => cases h
      | num n => cases h
      | str s => cases h
      | obj fields => cases h
  obtain ⟨l0, rfl⟩ := hshape
  constructor
  · rw [getKey_setKey_ne _ _ _ _ hk2, getKey_setKey_ne _ _ _ _ hk1]
  · intro k₂ hk₂
    by_cases h2 : k₂ = "ipv6"
    · subst h2
      rw [getKey_setKey_self]
      rfl
    · by_cases h3 : k₂ = "registry-mirrors"
      · subst h3
        rw [getKey_setKey_ne _ _ _ _ h2, getKey_setKey_self]
        rfl
      · rw [getKey_setKey_ne _ _ _ _ h2, getKey_setKey_ne _ _ _ _ h3]
        exact hk₂

theorem configure_docker_preserves_unrelated_keys_witness :
    getKey "debug" [("debug", JValue.bool true),
      ("registry-mirrors", JValue.arr [JValue.str "r-docker.pkg.dev/p/virtual"]),
      ("ipv6", JValue.bool true)] = getKey "debug" [("debug", JValue.bool true)]
    ∧ (∀ k₂, (getKey k₂ [("debug", JValue.bool true)]).isSome = true →
        (getKey k₂ [("debug", JValue.bool true),
          ("registry-mirrors", JValue.arr [JValue.str "r-docker.pkg.dev/p/virtual"]),
          ("ipv6", JValue.bool true)]).isSome = true) :=
  configure_docker_preserves_unrelated_keys "r" "p"
    [("debug", JValue.bool true)]
    [("debug", JValue.bool true),
     ("registry-mirrors", JValue.arr [JValue.str "r-docker.pkg.dev/p/virtual"]),
     ("ipv6", JValue.bool true)]
    "r-docker.pkg.dev/p/virtual" "debug" (by rfl) (by decide) (by decide)

/-- **C4.** `configure_docker` is not idempotent on the mirror list: when the
existing `registry-mirrors` list already contains the computed mirror URL,
the URL is appended unconditionally, so the resulting list contains it at
least twice. -/
theorem configure_docker_duplicates_mirror (region project : String) (m : Config)
    (l : List JValue)
    (hl : getKey "registry-mirrors" m = some (.arr l))
    (hmem : 1 ≤ countStr (virtual_repo_url region project) l) :
    ∃ m', configure_docker region project (some m)
        = some (m', virtual_repo_url region project)
      ∧ getKey "registry-mirrors" m'
          = some (.arr (l ++ [.str (virtual_repo_url region project)]))
      ∧ 2 ≤ countStr (virtual_repo_url region project)
            (l ++ [.str (virtual_repo_url region project)]) := by
  refine ⟨setKey "ipv6" (JValue.bool true)
      (setKey "registry-mirrors"
        (JValue.arr (l ++ [JValue.str (virtual_repo_url region project)])) m), ?_, ?_, ?_⟩
  · unfold configure_docker
    simp only [Option.getD_some]
    rw [hl]
  · rw [getKey_setKey_ne _ _ _ _ (by decide), getKey_setKey_self]
  · unfold countStr at hmem ⊢
    rw [List.countP_append]
    have hone : List.countP
        (fun v => match v with
          | JValue.str t => t == virtual_repo_url region project
          | _ => false)
        [JValue.str (virtual_repo_url region project)] = 1 := by
      simp [List.countP_cons]
    rw [hone]
    omega

theorem configure_docker_duplicates_mirror_witness :
    ∃ m', configure_docker "r" "p"
        (some [("registry-mirrors", JValue.arr [JValue.str "r-docker.pkg.dev/p/virtual"])])
        = some (m', virtual_repo_url "r" "p")
      ∧ getKey "registry-mirrors" m'
          = some (.arr ([JValue.str "r-docker.pkg.dev/p/virtual"]
              ++ [.str (virtual_repo_url "r" "p")]))
      ∧ 2 ≤ countStr (virtual_repo_url "r" "p")
            ([JValue.str "r-docker.pkg.dev/p/virtual"] ++ [.str (virtual_repo_url "r" "p")]) :=
  configure_docker_duplicates_mirror "r" "p"
    [("registry-mirrors", JValue.arr [JValue.str "r-docker.pkg.dev/p/virtual"])]
    [JValue.str "r-docker.pkg.dev/p/virtual"] (by rfl) (by decide)

/- ## The systemd unit rendering (`write_systemd_unit`)

`write_systemd_unit` fetches the JIT token, renders the unit text from the
mirror URL and the token, and writes it to
`/etc/systemd/system/gha-runner.service`.  The rendering is embedded below;
the fetch and the file write are part of the effect model. -/

theorem strAppend_assoc (a b c : String) : (a ++ b) ++ c = a ++ (b ++ c) := by
  apply String.ext
  simp [String.data_append, List.append_assoc]

theorem strContains_of_eq (hay pre needle post : String)
    (h : hay = pre ++ (needle ++ post)) : strContains hay needle :=
  ⟨pre, post, h⟩

theorem unit_contents_eq (m j : String) :
    unit_contents m j
      = unitPreStripped ++ (docker_run_line (image_ref m) j ++ unitPost) := by
  have h1 : unitPre.data = '\n' :: unitPreStripped.data := rfl
  have h2 : unitPreStripped.data = '[' :: unitPreStripped.data.tail := rfl
  have d1 : isPySpace '\n' = true := rfl
  have d2 : isPySpace '[' = false := rfl
  apply String.ext
  show ((unitPre ++ docker_run_line (image_ref m) j ++ unitPost).data).dropWhile isPySpace
      = (unitPreStripped ++ (docker_run_line (image_ref m) j ++ unitPost)).data
  rw [String.data_append, String.data_append, String.data_append, h1]
  rw [h2]
  simp only [List.cons_append, List.dropWhile_cons, d1, d2, if_true, Bool.false_eq_true,
    if_false, List.append_assoc, String.data_append]

theorem unit_contains_image (m j : String) :
    strContains (unit_contents m j) (image_ref m) := by
  apply strContains_of_eq _ (unitPreStripped ++ dockerFlags) _
    (" ./run.sh --jitconfig " ++ (j ++ unitPost))
  rw [unit_contents_eq]
  unfold docker_run_line
  simp only [strAppend_assoc]

theorem unit_contains_jit (m j : String) :
    strContains (unit_contents m j) ("--jitconfig " ++ j) := by
  apply strContains_of_eq _
    (unitPreStripped ++ (dockerFlags ++ (image_ref m ++ " ./run.sh "))) _ unitPost
  rw [unit_contents_eq]
  unfold docker_run_line
  have hRJ : (" ./run.sh --jitconfig " : String) = " ./run.sh " ++ "--jitconfig " := rfl
  rw [hRJ]
  simp only [strAppend_assoc]

theorem unit_contains_execstart (m j : String) :
    strContains (unit_contents m j) ("ExecStart=" ++ docker_run_line (image_ref m) j) := by
  apply strContains_of_eq _
    "[Unit]\nDescription=GitHub Actions Runner (container)\nAfter=docker.service\nRequires=docker.service\n\n[Service]\nType=exec\nEnvironment=\"DOCKER_CONFIG=/tmp/.docker\"\n\n# Start the container detached\n"
    _ unitPost
  rw [unit_contents_eq]
  have hPS : unitPreStripped
      = "[Unit]\nDescription=GitHub Actions Runner (container)\nAfter=docker.service\nRequires=docker.service\n\n[Service]\nType=exec\nEnvironment=\"DOCKER_CONFIG=/tmp/.docker\"\n\n# Start the container detached\n"
        ++ "ExecStart=" := rfl
  rw [hPS]
  simp only [strAppend_assoc]

theorem unit_contains_poweroff (m j : String) :
    strContains (unit_contents m j) "ExecStopPost=/usr/bin/systemctl poweroff" := by
  apply strContains_of_eq _
    (unitPreStripped ++ (docker_run_line (image_ref m) j ++ "\n\n# Power off when it’s done\n"))
    _ "\n\n# Don’t restart the unit; the container exit ends the VM\nRemainAfterExit=yes\n\n[Install]\nWantedBy=multi-user.target\n"
  rw [unit_contents_eq]
  have hUP : unitPost
      = "\n\n# Power off when it’s done\n"
        ++ ("ExecStopPost=/usr/bin/systemctl poweroff"
          ++ "\n\n# Don’t restart the unit; the container exit ends the VM\nRemainAfterExit=yes\n\n[Install]\nWantedBy=multi-user.target\n") := rfl
  rw [hUP]
  simp only [strAppend_assoc]

theorem unit_contains_remain (m j : String) :
    strContains (unit_contents m j) "RemainAfterExit=yes" := by
  apply strContains_of_eq _
    (unitPreStripped ++ (docker_run_line (image_ref m) j
      ++ "\n\n# Power off when it’s done\nExecStopPost=/usr/bin/systemctl poweroff\n\n# Don’t restart the unit; the container exit ends the VM\n"))
    _ "\n\n[Install]\nWantedBy=multi-user.target\n"
  rw [unit_contents_eq]
  have hUP : unitPost
      = "\n\n# Power off when it’s done\nExecStopPost=/usr/bin/systemctl poweroff\n\n# Don’t restart the unit; the container exit ends the VM\n"
        ++ ("RemainAfterExit=yes" ++ "\n\n[Install]\nWantedBy=multi-user.target\n") := rfl
  rw [hUP]
  simp only [strAppend_assoc]

/-- **C5.** For every mirror URL and JIT token, the rendered unit text
contains the exact image reference `<mirror_url>/actions/actions-runner:latest`
and the exact startup argument `--jitconfig <token>` inside the `ExecStart`
command, a post-stop power-off directive, and `RemainAfterExit` enabled;
in particular so for `mirror_url = "us-central1-docker.pkg.dev/proj/virtual"`
and `jit = "TOKEN123"`. -/
theorem write_systemd_unit_rendered_content (mirror_url jit : String) :
    strContains (unit_contents mirror_url jit)
      (mirror_url ++ "/actions/actions-runner:latest")
    ∧ strContains (unit_contents mirror_url jit) ("--jitconfig " ++ jit)
    ∧ strContains (unit_contents mirror_url jit)
        ("ExecStart=" ++ docker_run_line (image_ref mirror_url) jit)
    ∧ strContains (unit_contents mirror_url jit) "ExecStopPost=/usr/bin/systemctl poweroff"
    ∧ strContains (unit_contents mirror_url jit) "RemainAfterExit=yes"
    ∧ strContains (unit_contents "us-central1-docker.pkg.dev/proj/virtual" "TOKEN123")
        "us-central1-docker.pkg.dev/proj/virtual/actions/actions-runner:latest"
    ∧ strContains (unit_contents "us-central1-docker.pkg.dev/proj/virtual" "TOKEN123")
        "--jitconfig TOKEN123" :=
  ⟨unit_contains_image mirror_url jit,
   unit_contains_jit mirror_url jit,
   unit_contains_execstart mirror_url jit,
   unit_contains_poweroff mirror_url jit,
   unit_contains_remain mirror_url jit,
   unit_contains_image "us-central1-docker.pkg.dev/proj/virtual" "TOKEN123",
   unit_contains_jit "us-central1-docker.pkg.dev/proj/virtual" "TOKEN123"⟩

/- ## C9: stripping versus verbatim bodies -/

theorem pyStripL_append_nl (l : List Char) : pyStripL (l ++ ['\n']) = pyStripL l := by
  have hnl : isPySpace '\n' = true := rfl
  unfold pyStripL
  rw [List.reverse_append]
  simp [List.dropWhile_cons, hnl]

theorem pyStripL_cons_nl (l : List Char) : pyStripL ('\n' :: l) = pyStripL l := by
  have hnl : isPySpace '\n' = true := rfl
  unfold pyStripL
  rw [List.reverse_cons, List.dropWhile_append]
  by_cases hemp : (l.reverse.dropWhile isPySpace).isEmpty = true
  · rw [if_pos hemp]
    rw [List.isEmpty_iff] at hemp
    rw [hemp]
    simp [List.dropWhile_cons, hnl]
  · rw [if_neg hemp]
    rw [List.reverse_append]
    simp [List.dropWhile_cons, hnl]

theorem pyStrip_append_nl (s : String) : pyStrip (s ++ "\n") = pyStrip s := by
  apply String.ext
  show pyStripL ((s ++ "\n").data) = pyStripL s.data
  rw [String.data_append]
  exact pyStripL_append_nl s.data

theorem pyStrip_cons_nl (s : String) : pyStrip ("\n" ++ s) = pyStrip s := by
  apply String.ext
  show pyStripL (("\n" ++ s).data) = pyStripL s.data
  rw [String.data_append]
  exact pyStripL_cons_nl s.data

/-- **C9.** `get_project_id` and `get_region` strip surrounding whitespace
from the decoded metadata body, but `get_jitconfig` returns the body
verbatim; consequently, a JIT body ending in a newline has that newline
embedded as-is in the rendered unit after `--jitconfig`. -/
theorem metadata_strip_vs_verbatim (b m t : String) :
    get_jitconfig b = b
    ∧ get_project_id ("\n" ++ b ++ "\n") = get_project_id b
    ∧ get_region (b ++ "\n") = get_region b
    ∧ strContains (unit_contents m (get_jitconfig (t ++ "\n")))
        ("--jitconfig " ++ (t ++ "\n")) := by
  refine ⟨rfl, ?_, ?_, ?_⟩
  · unfold get_project_id
    rw [pyStrip_append_nl, pyStrip_cons_nl]
  · unfold get_region
    rw [pyStrip_append_nl]
  · exact unit_contains_jit m (t ++ "\n")

theorem main_run_fst (e : Env) : (main_run e).fst = mainOutcomeOf e := by
  unfold main_run mainOutcomeOf
  cases hio : e.installOk
  · simp [dirsOkB, hio]
  · cases hmo : e.mountOk
    · simp [dirsOkB, hio, hmo]
    · cases hpr : e.projectResp
      · simp [dirsOkB, metaOkB, hio, hmo, hpr]
      · cases hzr : e.zoneResp
        · simp [dirsOkB, metaOkB, hio, hmo, hpr, hzr]
        · cases hmt : e.mkTmpOk
          · simp [dirsOkB, metaOkB, cfgStageOkB, hio, hmo, hpr, hzr, hmt]
          · cases hcr : e.credOk
            · simp [dirsOkB, metaOkB, cfgStageOkB, hio, hmo, hpr, hzr, hmt, hcr]
            · cases hme : e.mkEtcOk
              · simp [dirsOkB, metaOkB, cfgStageOkB, hio, hmo, hpr, hzr, hmt, hcr, hme]
              · cases hdf : e.daemonFile with
                | absent =>
                  cases hwo : e.daemonWriteOk <;> cases hco : e.chmodOk <;>
                    cases hro : e.reloadOk <;> cases hjr : e.jitResp <;>
                    cases huw : e.unitWriteOk <;> cases hdr : e.daemonReloadOk <;>
                    cases heo : e.enableOk <;>
                    simp [dirsOkB, metaOkB, cfgStageOkB, unitStageOkB, daemonLoad,
                      daemonShapeOkB, mirrorsFieldOk, configure_docker, getKey, hdf,
                      hio, hmo, hpr, hzr, hmt, hcr, hme, hwo, hco, hro, hjr, huw, hdr, heo]
                | malformed =>
                  simp [dirsOkB, metaOkB, cfgStageOkB, daemonLoad, daemonShapeOkB, hdf,
                    hio, hmo, hpr, hzr, hmt, hcr, hme]
                | wellFormed cfg =>
                  cases hmk : getKey "registry-mirrors" cfg with
                  | none =>
                    cases hwo : e.daemonWriteOk <;> cases hco : e.chmodOk <;>
                      cases hro : e.reloadOk <;> cases hjr : e.jitResp <;>
                      cases huw : e.unitWriteOk <;> cases hdr : e.daemonReloadOk <;>
                      cases heo : e.enableOk <;>
                      simp [dirsOkB, metaOkB, cfgStageOkB, unitStageOkB, daemonLoad,
                        daemonShapeOkB, mirrorsFieldOk, configure_docker, hmk, hdf,
                        hio, hmo, hpr, hzr, hmt, hcr, hme, hwo, hco, hro, hjr, huw, hdr, heo]
                  | some v =>
                    cases v with
                    | arr l =>
                      cases hwo : e.daemonWriteOk <;> cases hco : e.chmodOk <;>
                        cases hro : e.reloadOk <;> cases hjr : e.jitResp <;>
                        cases huw : e.unitWriteOk <;> cases hdr : e.daemonReloadOk <;>
                        cases heo : e.enableOk <;>
                        simp [dirsOkB, metaOkB, cfgStageOkB, unitStageOkB, daemonLoad,
                          daemonShapeOkB, mirrorsFieldOk, configure_docker, hmk, hdf,
                          hio, hmo, hpr, hzr, hmt, hcr, hme, hwo, hco, hro, hjr, huw, hdr, heo]
                    | null =>
                      simp [dirsOkB, metaOkB, cfgStageOkB, daemonLoad, daemonShapeOkB,
                        mirrorsFieldOk, configure_docker, hmk, hdf,
                        hio, hmo, hpr, hzr, hmt, hcr, hme]
                    | bool b =>
                      simp [dirsOkB, metaOkB, cfgStageOkB, daemonLoad, daemonShapeOkB,
                        mirrorsFieldOk, configure_docker, hmk, hdf,
                        hio, hmo, hpr, hzr, hmt, hcr, hme]
                    | num n =>
                      simp [dirsOkB, metaOkB, cfgStageOkB, daemonLoad, daemonShapeOkB,
                        mirrorsFieldOk, configure_docker, hmk, hdf,
                        hio, hmo, hpr, hzr, hmt, hcr, hme]
                    | str s =>
                      simp [dirsOkB, metaOkB, cfgStageOkB, daemonLoad, daemonShapeOkB,
                        mirrorsFieldOk, configure_docker, hmk, hdf,
                        hio, hmo, hpr, hzr, hmt, hcr, hme]
                    | obj fields =>
                      simp [dirsOkB, metaOkB, cfgStageOkB, daemonLoad, daemonShapeOkB,
                        mirrorsFieldOk, configure_docker, hmk, hdf,
                        hio, hmo, hpr, hzr, hmt, hcr, hme]

theorem exitOne_cases (x : MainOutcome) :
    (∃ s, x = .exitOne s)
      ↔ x = .exitOne .dockerConfig ∨ x = .exitOne .dockerReload ∨ x = .exitOne .unitInstall := by
  constructor
  · rintro ⟨s, rfl⟩
    cases s
    · exact Or.inl rfl
    · exact Or.inr (Or.inl rfl)
    · exact Or.inr (Or.inr rfl)
  · rintro (rfl | rfl | rfl) <;> exact ⟨_, rfl⟩

/-- **C7.** `main` exits with status 0 exactly on full success; it calls
`sys.exit(1)` exactly when the docker-configuration stage, the docker-reload
stage, or the unit installation/activation stage raises (each caught and
logged by the orchestrator); errors raised during directory provisioning or
the project/region metadata retrieval are not caught and propagate as
uncaught process termination. -/
theorem main_exit_code_characterization (e : Env) :
    ((main_run e).fst = .success
      ↔ (dirsOkB e && metaOkB e && cfgStageOkB e && e.chmodOk && e.reloadOk
          && unitStageOkB e) = true)
    ∧ ((main_run e).fst = .exitOne .dockerConfig
      ↔ (dirsOkB e && metaOkB e) = true ∧ cfgStageOkB e = false)
    ∧ ((main_run e).fst = .exitOne .dockerReload
      ↔ (dirsOkB e && metaOkB e && cfgStageOkB e && e.chmodOk) = true
          ∧ e.reloadOk = false)
    ∧ ((main_run e).fst = .exitOne .unitInstall
      ↔ (dirsOkB e && metaOkB e && cfgStageOkB e && e.chmodOk && e.reloadOk) = true
          ∧ unitStageOkB e = false)
    ∧ ((∃ s, (main_run e).fst = .exitOne s)
      ↔ (dirsOkB e && metaOkB e) = true
          ∧ (cfgStageOkB e = false
             ∨ (cfgStageOkB e && e.chmodOk) = true ∧ e.reloadOk = false
             ∨ (cfgStageOkB e && e.chmodOk && e.reloadOk) = true ∧ unitStageOkB e = false))
    ∧ ((main_run e).fst = .uncaught .runnerDirs ↔ dirsOkB e = false)
    ∧ (((main_run e).fst = .uncaught .projectFetch ∨ (main_run e).fst = .uncaught .regionFetch)
      ↔ dirsOkB e = true ∧ metaOkB e = false) := by
  simp only [main_run_fst, exitOne_cases]
  unfold mainOutcomeOf
  cases h1 : dirsOkB e <;> cases h2 : metaOkB e <;> cases h3 : cfgStageOkB e <;>
    cases h4 : e.chmodOk <;> cases h5 : e.reloadOk <;> cases h6 : unitStageOkB e <;>
    cases h7 : e.projectResp <;>
    simp [h1, h2, h3, h4, h5, h6, h7]

theorem main_run_snd (e : Env) : (main_run e).snd.map eventKind = mainKindsOf e := by
  unfold main_run mainKindsOf
  cases hio : e.installOk
  · simp [hio, canonicalKinds, eventKind]
  · cases hmo : e.mountOk
    · simp [hio, hmo, canonicalKinds, eventKind]
    · cases hpr : e.projectResp
      · simp [hio, hmo, hpr, canonicalKinds, eventKind]
      · cases hzr : e.zoneResp
        · simp [hio, hmo, hpr, hzr, canonicalKinds, eventKind]
        · cases hmt : e.mkTmpOk
          · simp [hio, hmo, hpr, hzr, hmt, canonicalKinds, eventKind]
          · cases hcr : e.credOk
            · simp [hio, hmo, hpr, hzr, hmt, hcr, canonicalKinds, eventKind]
            · cases hme : e.mkEtcOk
              · simp [hio, hmo, hpr, hzr, hmt, hcr, hme, canonicalKinds, eventKind]
              · cases hdf : e.daemonFile with
                | absent =>
                  cases hwo : e.daemonWriteOk <;> cases hco : e.chmodOk <;>
                    cases hro : e.reloadOk <;> cases hjr : e.jitResp <;>
                    cases huw : e.unitWriteOk <;> cases hdr : e.daemonReloadOk <;>
                    cases heo : e.enableOk <;>
                    simp [daemonLoad, daemonShapeOkB, mirrorsFieldOk, configure_docker,
                      getKey, canonicalKinds, eventKind, hdf,
                      hio, hmo, hpr, hzr, hmt, hcr, hme, hwo, hco, hro, hjr, huw, hdr, heo]
                | malformed =>
                  simp [daemonLoad, daemonShapeOkB, canonicalKinds, eventKind, hdf,
                    hio, hmo, hpr, hzr, hmt, hcr, hme]
                | wellFormed cfg =>
                  cases hmk : getKey "registry-mirrors" cfg with
                  | none =>
                    cases hwo : e.daemonWriteOk <;> cases hco : e.chmodOk <;>
                      cases hro : e.reloadOk <;> cases hjr : e.jitResp <;>
                      cases huw : e.unitWriteOk <;> cases hdr : e.daemonReloadOk <;>
                      cases heo : e.enableOk <;>
                      simp [daemonLoad, daemonShapeOkB, mirrorsFieldOk, configure_docker,
                        hmk, canonicalKinds, eventKind, hdf,
                        hio, hmo, hpr, hzr, hmt, hcr, hme, hwo, hco, hro, hjr, huw, hdr, heo]
                  | some v =>
                    cases v with
                    | arr l =>
                      cases hwo : e.daemonWriteOk <;> cases hco : e.chmodOk <;>
                        cases hro : e.reloadOk <;> cases hjr : e.jitResp <;>
                        cases huw : e.unitWriteOk <;> cases hdr : e.daemonReloadOk <;>
                        cases heo : e.enableOk <;>
                        simp [daemonLoad, daemonShapeOkB, mirrorsFieldOk, configure_docker,
                          hmk, canonicalKinds, eventKind, hdf,
                          hio, hmo, hpr, hzr, hmt, hcr, hme, hwo, hco, hro, hjr, huw, hdr, heo]
                    | null =>
                      simp [daemonLoad, daemonShapeOkB, mirrorsFieldOk, configure_docker,
                        hmk, canonicalKinds, eventKind, hdf,
                        hio, hmo, hpr, hzr, hmt, hcr, hme]
                    | bool b =>
                      simp [daemonLoad, daemonShapeOkB, mirrorsFieldOk, configure_docker,
                        hmk, canonicalKinds, eventKind, hdf,
                        hio, hmo, hpr, hzr, hmt, hcr, hme]
                    | num n =>
                      simp [daemonLoad, daemonShapeOkB, mirrorsFieldOk, configure_docker,
                        hmk, canonicalKinds, eventKind, hdf,
                        hio, hmo, hpr, hzr, hmt, hcr, hme]
                    | str s =>
                      simp [daemonLoad, daemonShapeOkB, mirrorsFieldOk, configure_docker,
                        hmk, canonicalKinds, eventKind, hdf,
                        hio, hmo, hpr, hzr, hmt, hcr, hme]
                    | obj fields =>
                      simp [daemonLoad, daemonShapeOkB, mirrorsFieldOk, configure_docker,
                        hmk, canonicalKinds, eventKind, hdf,
                        hio, hmo, hpr, hzr, hmt, hcr, hme]

theorem prefix_ite (c : Prop) [Decidable c] (a b : List EventKind)
    (ha : a <+: canonicalKinds) (hb : b <+: canonicalKinds) :
    (if c then a else b) <+: canonicalKinds := by
  split
  · exact ha
  · exact hb

theorem main_run_kinds_canonical (e : Env) :
    ((main_run e).snd.map eventKind) <+: canonicalKinds := by
  rw [main_run_snd]
  unfold mainKindsOf
  repeat' apply prefix_ite
  all_goals decide

theorem mainKindsOf_of_success (e : Env) (h : mainOutcomeOf e = .success) :
    mainKindsOf e = canonicalKinds := by
  unfold mainOutcomeOf at h
  split_ifs at h
  rename_i h1 h2 h3 h4 h5 h6
  unfold mainKindsOf
  simp only [dirsOkB, metaOkB, cfgStageOkB, unitStageOkB, Bool.and_eq_true] at h1 h2 h3 h6
  simp [h1.1, h1.2, h2.1, h2.2, h3.1.1.1.1, h3.1.1.1.2, h3.1.1.2, h3.1.2, h3.2, h4, h5,
    h6.1.1.1, h6.1.1.2, h6.1.2, h6.2]

/-- **C8.** The externally visible steps of `main` occur in the fixed order
provision/bind-mount, project fetch, zone fetch, engine configuration
(credential helper, config dir, load, rewrite, write), socket chmod, engine
reload, JIT fetch, unit write, unit-index reload, enable/start; every run's
kind trace is a prefix of that order (so a step runs only when all earlier
steps succeeded), no step occurs twice, and a successful run performs
exactly the whole sequence. -/
theorem main_pipeline_order (e : Env) :
    ((main_run e).snd.map eventKind) <+: canonicalKinds
    ∧ ((main_run e).snd.map eventKind).Nodup
    ∧ ((main_run e).fst = .success → (main_run e).snd.map eventKind = canonicalKinds) := by
  have hpre := main_run_kinds_canonical e
  refine ⟨hpre, hpre.sublist.nodup (by decide), ?_⟩
  intro hs
  rw [main_run_fst] at hs
  rw [main_run_snd]
  exact mainKindsOf_of_success e hs

theorem main_pipeline_order_witness :
    (main_run envAllOk).fst = .success
    ∧ (main_run envAllOk).snd.map eventKind = canonicalKinds :=
  ⟨by decide, (main_pipeline_order envAllOk).2.2 (by decide)⟩

/-- **C6 (counterexample).** In the concrete run in which the JIT metadata
fetch fails, the failure is fatal (exit 1, no retry), but the claim's "no
filesystem mutation has yet been performed at the point of that failure" is
false: the trace ends at the failing `fetchJit` and already contains the
`daemon.json` write, the directory provisioning, the bind mount and the
socket chmod. -/
theorem jit_failure_after_daemon_write :
    (main_run envJitFail).fst = .exitOne .unitInstall
    ∧ (main_run envJitFail).snd.map eventKind
        = [.installDir, .bindMount, .fetchProject, .fetchZone, .mkTmpDir, .credHelper,
           .mkEtcDir, .loadDaemon, .writeDaemon, .chmodSock, .reloadDocker, .fetchJit]
    ∧ ¬ (∀ k ∈ (main_run envJitFail).snd.map eventKind, fsMutation k = false) :=
  ⟨by decide, by decide, by decide⟩

/-- **C6 (amended).** Every metadata fetch is attempted at most once (no
retry) and its failure is fatal: a project-id or zone fetch failure
propagates uncaught, with no configuration-file write performed yet — but
after the directory provisioning and bind mount; a JIT fetch failure is
caught and exits 1, after the `daemon.json` write, socket chmod and docker
reload have already happened. -/
theorem metadata_fetch_failure_behavior (e : Env) :
    ((main_run e).snd.map eventKind).count .fetchProject ≤ 1
    ∧ ((main_run e).snd.map eventKind).count .fetchZone ≤ 1
    ∧ ((main_run e).snd.map eventKind).count .fetchJit ≤ 1
    ∧ (e.installOk = true → e.mountOk = true → e.projectResp = none →
        (main_run e).fst = .uncaught .projectFetch
        ∧ (main_run e).snd.map eventKind = [.installDir, .bindMount, .fetchProject])
    ∧ (e.installOk = true → e.mountOk = true → e.projectResp.isSome = true →
        e.zoneResp = none →
        (main_run e).fst = .uncaught .regionFetch
        ∧ (main_run e).snd.map eventKind
            = [.installDir, .bindMount, .fetchProject, .fetchZone])
    ∧ (e.installOk = true → e.mountOk = true → e.projectResp.isSome = true →
        e.zoneResp.isSome = true → e.mkTmpOk = true → e.credOk = true →
        e.mkEtcOk = true → daemonShapeOkB e.daemonFile = true →
        e.daemonWriteOk = true → e.chmodOk = true → e.reloadOk = true →
        e.jitResp = none →
        (main_run e).fst = .exitOne .unitInstall
        ∧ (main_run e).snd.map eventKind
            = [.installDir, .bindMount, .fetchProject, .fetchZone, .mkTmpDir, .credHelper,
               .mkEtcDir, .loadDaemon, .writeDaemon, .chmodSock, .reloadDocker, .fetchJit]) := by
  have hsub := (main_run_kinds_canonical e).sublist
  refine ⟨le_trans (hsub.count_le _) (by decide),
          le_trans (hsub.count_le _) (by decide),
          le_trans (hsub.count_le _) (by decide), ?_, ?_, ?_⟩
  · intro hio hmo hpr
    constructor
    · rw [main_run_fst]
      unfold mainOutcomeOf
      simp [dirsOkB, metaOkB, hio, hmo, hpr]
    · rw [main_run_snd]
      unfold mainKindsOf
      simp only [hio, hmo, hpr, Option.isSome_none, if_true, if_false, Bool.false_eq_true]
      decide
  · intro hio hmo hprs hzr
    constructor
    · rw [main_run_fst]
      unfold mainOutcomeOf
      simp [dirsOkB, metaOkB, hio, hmo, hprs, hzr]
    · rw [main_run_snd]
      unfold mainKindsOf
      simp only [hio, hmo, hprs, hzr, Option.isSome_none, if_true, if_false,
        Bool.false_eq_true]
      decide
  · intro hio hmo hprs hzrs hmt hcr hme hdfs hwo hco hro hjr
    constructor
    · rw [main_run_fst]
      unfold mainOutcomeOf
      simp [dirsOkB, metaOkB, cfgStageOkB, unitStageOkB, hio, hmo, hprs, hzrs, hmt,
        hcr, hme, hdfs, hwo, hco, hro, hjr]
    · rw [main_run_snd]
      unfold mainKindsOf
      simp only [hio, hmo, hprs, hzrs, hmt, hcr, hme, hdfs, hwo, hco, hro, hjr,
        Option.isSome_none, if_true, if_false, Bool.false_eq_true]
      decide

theorem metadata_fetch_failure_behavior_witness :
    (main_run envProjFail).fst = .uncaught .projectFetch
    ∧ (main_run envProjFail).snd.map eventKind
        = [.installDir, .bindMount, .fetchProject] :=
  (metadata_fetch_failure_behavior envProjFail).2.2.2.1 rfl rfl rfl
